import Mathlib

/-!
Verification of the `util` facade module of the b4w engine
(`src/b4w/ext/util.js`).

The module is a facade: it defines six axis constants, adds a
dot-product guard in front of the internal quaternion projection,
allocates default destination buffers for the euler/quaternion
conversions, and re-exports the remaining helpers from an internal
module `__util` whose code is not part of this repository.

Modelling choices:
* scalars are `ℚ` (exact arithmetic standing in for IEEE doubles) except
  for the transcendental helpers `smooth` and `angle_wrap_0_2pi`, which
  are modelled over `ℝ`;
* `Float32Array` buffers live in an explicit heap `Heap := List (List ℚ)`
  indexed by allocation order, so that allocation and in-place writes are
  observable;
* the internal module functions that the facade delegates to are opaque
  to the facade, so the facade embeddings are parametric in the pure
  mathematical content of those internal functions (`uproj`, `ueq`,
  `ute`); their buffer plumbing (write the result into the destination
  buffer, allocating a fresh one when none is given) is modelled from
  the spec;
* internal re-exports whose whole body is absent (`sign`, `smooth`,
  `angle_wrap_0_2pi`) are modelled from the spec's explicit formulas.
-/

namespace B4WUtil

/-- A 3-component vector (`Float32Array` of length 3 in the source). -/
abbrev Vec3 : Type := ℚ × ℚ × ℚ

/-- A quaternion value `(x, y, z, w)` (`Float32Array` of length 4). -/
abbrev Quat : Type := ℚ × ℚ × ℚ × ℚ

/-- Euler triple `(heading-Y, attitude-Z, bank-X)`. -/
abbrev Euler : Type := ℚ × ℚ × ℚ

/-- `m_vec3.dot`: the standard 3-vector dot product used by the
facade's in-plane guard. -/
def dot (a b : Vec3) : ℚ :=
  a.1 * b.1 + a.2.1 * b.2.1 + a.2.2 * b.2.2

/-- `exports.AXIS_X = new Float32Array([1, 0, 0])`. -/
def AXIS_X : Vec3 := (1, 0, 0)

/-- `exports.AXIS_Y = new Float32Array([0, 1, 0])`. -/
def AXIS_Y : Vec3 := (0, 1, 0)

/-- `exports.AXIS_Z = new Float32Array([0, 0, 1])`. -/
def AXIS_Z : Vec3 := (0, 0, 1)

/-- `exports.AXIS_MX = new Float32Array([-1, 0, 0])`. -/
def AXIS_MX : Vec3 := (-1, 0, 0)

/-- `exports.AXIS_MY = new Float32Array([0, -1, 0])`. -/
def AXIS_MY : Vec3 := (0, -1, 0)

/-- `exports.AXIS_MZ = new Float32Array([0, 0, -1])`. -/
def AXIS_MZ : Vec3 := (0, 0, -1)

/-- Heap of allocated buffers: buffer `i` is `h.getD i []`.
A fresh allocation appends to the list, so existing indices are stable. -/
abbrev Heap : Type := List (List ℚ)

/-- Write the values `v` into an existing fixed-size buffer `buf`:
the buffer keeps its length (a `Float32Array` cannot be resized). -/
def overwrite (buf v : List ℚ) : List ℚ :=
  v.take buf.length ++ buf.drop v.length

/-- In-place write of `v` into heap buffer `i`. -/
def hwrite (h : Heap) (i : Nat) (v : List ℚ) : Heap :=
  h.set i (overwrite (h.getD i []) v)

/-- `new Float32Array(n)`: allocate a fresh zero-filled buffer of
length `n`, returning its index and the grown heap. -/
def halloc (h : Heap) (n : Nat) : Nat × Heap :=
  (h.length, h ++ [List.replicate n 0])

/-- Modelled from the spec: the internal `util.quat_project` (module
`__util`, not in this repository) writes its result into the
destination buffer — allocating a fresh 4-component one when none is
supplied — and returns that buffer.  Its mathematical content is the
parameter `uproj`, kept abstract because the spec gives no formula. -/
def uquat_project (uproj : Quat → Vec3 → Vec3 → Vec3 → List ℚ)
    (h : Heap) (quat : Quat) (quat_ident_dir plane plane_ident_dir : Vec3)
    (dest : Option Nat) : Nat × Heap :=
  match dest with
  | none =>
      let a := halloc h 4
      (a.1, hwrite a.2 a.1 (uproj quat quat_ident_dir plane plane_ident_dir))
  | some d =>
      (d, hwrite h d (uproj quat quat_ident_dir plane plane_ident_dir))

/-- `exports.quat_project` (util.js lines 168–178): if
`m_vec3.dot(plane, plane_ident_dir) != 0` it prints
"Wrong in-plane direction" and returns `null`; otherwise it returns the
internal `util.quat_project` applied to the same arguments.
Result: (returned buffer or the null sentinel, heap after the call,
messages printed by the call). -/
def quat_project (uproj : Quat → Vec3 → Vec3 → Vec3 → List ℚ)
    (h : Heap) (quat : Quat) (quat_ident_dir plane plane_ident_dir : Vec3)
    (dest : Option Nat) : Option Nat × Heap × List String :=
  if dot plane plane_ident_dir ≠ 0 then
    (none, h, ["Wrong in-plane direction"])
  else
    let r := uquat_project uproj h quat quat_ident_dir plane plane_ident_dir dest
    (some r.1, r.2, [])

/-- `exports.ground_project_quat` (util.js lines 142–144): calls the
internal `util.quat_project` directly (no guard, no printing) with
`quat_ident_dir = AXIS_MY`, `plane = AXIS_Y`, `plane_ident_dir =
AXIS_MZ`.  The internal module's axis constants hold the same values as
the exported ones. -/
def ground_project_quat (uproj : Quat → Vec3 → Vec3 → Vec3 → List ℚ)
    (h : Heap) (quat : Quat) (dest : Option Nat) :
    Option Nat × Heap × List String :=
  let r := uquat_project uproj h quat AXIS_MY AXIS_Y AXIS_MZ dest
  (some r.1, r.2, [])

/-- `exports.euler_to_quat` (util.js lines 81–86): if no destination is
supplied, allocate `new Float32Array(4)`; then delegate to the internal
`util.euler_to_quat(euler, quat)`, modelled from the spec as writing the
converted value (abstract content `ueq`) into the buffer and returning
it. -/
def euler_to_quat (ueq : Euler → List ℚ) (h : Heap) (euler : Euler)
    (dest : Option Nat) : Nat × Heap :=
  match dest with
  | none =>
      let a := halloc h 4
      (a.1, hwrite a.2 a.1 (ueq euler))
  | some d =>
      (d, hwrite h d (ueq euler))

/-- `exports.quat_to_euler` (util.js lines 103–108): if no destination
is supplied, allocate `new Float32Array(3)`; then delegate to the
internal `util.quat_to_euler(quat, euler)`, modelled from the spec as
writing the converted value (abstract content `ute`) into the buffer
and returning it. -/
def quat_to_euler (ute : Quat → List ℚ) (h : Heap) (quat : Quat)
    (dest : Option Nat) : Nat × Heap :=
  match dest with
  | none =>
      let a := halloc h 3
      (a.1, hwrite a.2 a.1 (ute quat))
  | some d =>
      (d, hwrite h d (ute quat))

/-- Modelled from the spec: `util.sign` (module `__util`, not in this
repository) — "sign classification; exact zero maps to 0", returning in
`(-1, 0, 1)` for negative, zero or positive input. -/
def sign (value : ℚ) : ℚ :=
  if 0 < value then 1 else if value < 0 then -1 else 0

/-- Modelled from the spec: `util.smooth` (module `__util`, not in this
repository) — exponential smoothing with formula
`last + (curr - last) * (1 - exp(-delta / period))`. -/
noncomputable def smooth (curr last delta period : ℝ) : ℝ :=
  last + (curr - last) * (1 - Real.exp (-delta / period))

/-- Modelled from the spec: `util.angle_wrap_0_2pi` (module `__util`,
not in this repository) — reduces an angle into `[0, 2π)` by removing
the integer number of whole turns. -/
noncomputable def angle_wrap_0_2pi (angle : ℝ) : ℝ :=
  angle - 2 * Real.pi * ⌊angle / (2 * Real.pi)⌋

/-! ### Real-valued model of the internal euler/quaternion conversions

The mathematical content of the internal module's conversions is not in
this repository, so it is modelled from the spec over `ℝ`. -/

/-- A real-valued quaternion `(x, y, z, w)` for the rotation-math model. -/
abbrev RQuat : Type := ℝ × ℝ × ℝ × ℝ

/-- Hamilton product of quaternions in `(x, y, z, w)` component order:
composition of the rotations they represent. -/
noncomputable def qmul (p q : RQuat) : RQuat :=
  (p.2.2.2 * q.1 + p.1 * q.2.2.2 + p.2.1 * q.2.2.1 - p.2.2.1 * q.2.1,
   p.2.2.2 * q.2.1 + p.2.1 * q.2.2.2 + p.2.2.1 * q.1 - p.1 * q.2.2.1,
   p.2.2.2 * q.2.2.1 + p.2.2.1 * q.2.2.2 + p.1 * q.2.1 - p.2.1 * q.1,
   p.2.2.2 * q.2.2.2 - p.1 * q.1 - p.2.1 * q.2.1 - p.2.2.1 * q.2.2.1)

/-- `Math.atan2 y x`: the angle of the ray towards `(x, y)`, in
`(-π, π]`, realised as the complex argument. -/
noncomputable def atan2 (y x : ℝ) : ℝ := Complex.arg ⟨x, y⟩

/-- Modelled from the spec: the internal `util.euler_to_quat` (module
`__util`, absent from this repository) — "converts intrinsic Y-Z-X euler
angles to a unit quaternion" with `euler = (heading-Y, attitude-Z,
bank-X)`: the composition `qY(heading) * qZ(attitude) * qX(bank)` of the
three axis rotations. -/
noncomputable def ueuler_to_quat (euler : ℝ × ℝ × ℝ) : RQuat :=
  qmul (qmul (0, Real.sin (euler.1 / 2), 0, Real.cos (euler.1 / 2))
             (0, 0, Real.sin (euler.2.1 / 2), Real.cos (euler.2.1 / 2)))
       (Real.sin (euler.2.2 / 2), 0, 0, Real.cos (euler.2.2 / 2))

/-- Modelled from the spec: the internal `util.quat_to_euler`, the
"inverse of the above" — the standard intrinsic Y-Z-X extraction from a
unit quaternion: arcsine for the attitude, arctangent ratios for heading
and bank. -/
noncomputable def uquat_to_euler (q : RQuat) : ℝ × ℝ × ℝ :=
  (atan2 (2 * (q.2.1 * q.2.2.2 - q.1 * q.2.2.1))
     (1 - 2 * (q.2.1 ^ 2 + q.2.2.1 ^ 2)),
   Real.arcsin (2 * (q.1 * q.2.1 + q.2.2.1 * q.2.2.2)),
   atan2 (2 * (q.1 * q.2.2.2 - q.2.1 * q.2.2.1))
     (1 - 2 * (q.1 ^ 2 + q.2.2.1 ^ 2)))

/-! ### Helper lemmas about the heap model -/

theorem overwrite_length (buf v : List ℚ) :
    (overwrite buf v).length = buf.length := by
  simp [overwrite]
  omega

theorem hwrite_length (h : Heap) (i : Nat) (v : List ℚ) :
    (hwrite h i v).length = h.length := by
  simp [hwrite]

theorem hwrite_concat (h : Heap) (r v : List ℚ) :
    hwrite (h ++ [r]) h.length v = h ++ [overwrite r v] := by
  unfold hwrite
  rw [List.getD_append_right _ _ _ _ le_rfl, List.set_append_right _ _ le_rfl]
  simp

/-! ### Claim theorems -/

/-- C8: the six exported axis constants hold exactly the stated unit
values `±X, ±Y, ±Z`.  In this embedding they are immutable values: no
operation of the module takes or writes a buffer holding them, so they
keep these values across every sequence of calls. -/
theorem axis_constants_spec :
    AXIS_X = (1, 0, 0) ∧ AXIS_Y = (0, 1, 0) ∧ AXIS_Z = (0, 0, 1) ∧
    AXIS_MX = (-1, 0, 0) ∧ AXIS_MY = (0, -1, 0) ∧ AXIS_MZ = (0, 0, -1) :=
  ⟨rfl, rfl, rfl, rfl, rfl, rfl⟩

/-- C10: `sign` returns `1` on positive input, `-1` on negative input,
`0` on exactly zero, and its value is always one of `-1, 0, 1`. -/
theorem sign_spec :
    (∀ x : ℚ, 0 < x → sign x = 1) ∧
    (∀ x : ℚ, x < 0 → sign x = -1) ∧
    sign 0 = 0 ∧
    (∀ x : ℚ, sign x = -1 ∨ sign x = 0 ∨ sign x = 1) := by
  refine ⟨fun x hx => by simp [sign, hx], fun x hx => ?_, rfl, fun x => ?_⟩
  · rw [sign, if_neg (by linarith), if_pos hx]
  · unfold sign
    split
    · exact Or.inr (Or.inr rfl)
    · split
      · exact Or.inl rfl
      · exact Or.inr (Or.inl rfl)

/-- Witness for C10 at the spec's own examples. -/
theorem sign_spec_witness :
    sign 5 = 1 ∧ sign (-3) = -1 ∧ sign 0 = 0 :=
  ⟨sign_spec.1 5 (by norm_num), sign_spec.2.1 (-3) (by norm_num),
   sign_spec.2.2.1⟩

/-- C1: `quat_project` returns the null sentinel exactly when
`dot plane plane_ident_dir` is not exactly zero; in that case it prints
"Wrong in-plane direction" and leaves the heap alone, and when the dot
product is exactly zero it returns the result of the delegated internal
projection with nothing printed. -/
theorem quat_project_guard (uproj : Quat → Vec3 → Vec3 → Vec3 → List ℚ)
    (h : Heap) (q : Quat) (qid plane pid : Vec3) (dest : Option Nat) :
    ((quat_project uproj h q qid plane pid dest).1 = none ↔
      dot plane pid ≠ 0) ∧
    (dot plane pid ≠ 0 →
      quat_project uproj h q qid plane pid dest =
        (none, h, ["Wrong in-plane direction"])) ∧
    (dot plane pid = 0 →
      quat_project uproj h q qid plane pid dest =
        (some (uquat_project uproj h q qid plane pid dest).1,
         (uquat_project uproj h q qid plane pid dest).2, [])) := by
  unfold quat_project
  by_cases hd : dot plane pid = 0 <;> simp [hd]

/-- Witness for C1: a violated precondition (`plane = plane_ident_dir =
+Y`, dot = 1) yields the sentinel and the error message; a satisfied one
(`plane_ident_dir = -Z`, dot = 0) yields a non-null result. -/
theorem quat_project_guard_witness :
    (dot (0, 1, 0) (0, 1, 0) ≠ 0 ∧
      quat_project (fun _ _ _ _ => [0, 0, 0, 1]) [] (0, 0, 0, 1)
        (0, -1, 0) (0, 1, 0) (0, 1, 0) none =
        (none, [], ["Wrong in-plane direction"])) ∧
    (dot (0, 1, 0) (0, 0, -1) = 0 ∧
      (quat_project (fun _ _ _ _ => [0, 0, 0, 1]) [] (0, 0, 0, 1)
        (0, -1, 0) (0, 1, 0) (0, 0, -1) none).1 ≠ none) := by
  have h1 : dot ((0 : ℚ), (1 : ℚ), (0 : ℚ)) (0, 1, 0) ≠ 0 := by
    norm_num [dot]
  have h2 : dot ((0 : ℚ), (1 : ℚ), (0 : ℚ)) (0, 0, -1) = 0 := by
    norm_num [dot]
  refine ⟨⟨h1, (quat_project_guard _ _ _ _ _ _ _).2.1 h1⟩, h2, fun hn => ?_⟩
  exact absurd ((quat_project_guard _ _ _ _ _ _ _).1.mp hn) (by simpa using h2)

/-- C5: when the precondition is violated the internal projection is not
invoked — the result does not depend on the internal function at all —
and the heap (in particular any supplied destination buffer) is left
unchanged. -/
theorem quat_project_fail_fast
    (uproj uproj' : Quat → Vec3 → Vec3 → Vec3 → List ℚ)
    (h : Heap) (q : Quat) (qid plane pid : Vec3) (dest : Option Nat)
    (hne : dot plane pid ≠ 0) :
    (quat_project uproj h q qid plane pid dest).2.1 = h ∧
    quat_project uproj h q qid plane pid dest =
      quat_project uproj' h q qid plane pid dest := by
  unfold quat_project
  simp [hne]

/-- Witness for C5: with a supplied destination buffer `0` holding
`[5]`, a failing call leaves the heap exactly as it was. -/
theorem quat_project_fail_fast_witness :
    dot (0, 1, 0) (0, 1, 0) ≠ 0 ∧
    (quat_project (fun _ _ _ _ => [9, 9, 9, 9]) [[5]] (0, 0, 0, 1)
      (0, -1, 0) (0, 1, 0) (0, 1, 0) (some 0)).2.1 = [[5]] := by
  have h1 : dot ((0 : ℚ), (1 : ℚ), (0 : ℚ)) (0, 1, 0) ≠ 0 := by
    norm_num [dot]
  exact ⟨h1, (quat_project_fail_fast _ (fun _ _ _ _ => [9, 9, 9, 9])
    _ _ _ _ _ _ h1).1⟩

/-- C2: `ground_project_quat quat dest` computes the same result as
`quat_project quat AXIS_MY AXIS_Y AXIS_MZ dest`, for every internal
projection function, quaternion, heap and destination. -/
theorem ground_project_quat_spec
    (uproj : Quat → Vec3 → Vec3 → Vec3 → List ℚ)
    (h : Heap) (q : Quat) (dest : Option Nat) :
    ground_project_quat uproj h q dest =
      quat_project uproj h q AXIS_MY AXIS_Y AXIS_MZ dest := by
  unfold ground_project_quat quat_project
  norm_num [dot, AXIS_Y, AXIS_MZ]

/-- C3: `ground_project_quat` never returns the null sentinel and never
prints anything: it calls the internal projection directly, and its
fixed plane arguments satisfy `dot AXIS_Y AXIS_MZ = 0`, so the guard
branch would be unreachable anyway. -/
theorem ground_project_quat_no_error
    (uproj : Quat → Vec3 → Vec3 → Vec3 → List ℚ)
    (h : Heap) (q : Quat) (dest : Option Nat) :
    (ground_project_quat uproj h q dest).1 ≠ none ∧
    (ground_project_quat uproj h q dest).2.2 = [] ∧
    dot AXIS_Y AXIS_MZ = 0 := by
  refine ⟨?_, rfl, by norm_num [dot, AXIS_Y, AXIS_MZ]⟩
  simp [ground_project_quat]

theorem euler_to_quat_none_eq (ueq : Euler → List ℚ) (h : Heap) (e : Euler) :
    euler_to_quat ueq h e none =
      (h.length, h ++ [overwrite (List.replicate 4 0) (ueq e)]) := by
  show (h.length, hwrite (h ++ [List.replicate 4 0]) h.length (ueq e)) = _
  rw [hwrite_concat]

theorem quat_to_euler_none_eq (ute : Quat → List ℚ) (h : Heap) (q : Quat) :
    quat_to_euler ute h q none =
      (h.length, h ++ [overwrite (List.replicate 3 0) (ute q)]) := by
  show (h.length, hwrite (h ++ [List.replicate 3 0]) h.length (ute q)) = _
  rw [hwrite_concat]

/-- C4: with no destination, `euler_to_quat` allocates exactly one fresh
buffer — at the first free index — of 4 components and returns it, and
`quat_to_euler` one of 3 components; with a destination supplied, no
fresh buffer is allocated (the heap keeps its size) and the supplied
buffer index is returned. -/
theorem dest_allocation_spec (ueq : Euler → List ℚ) (ute : Quat → List ℚ)
    (h : Heap) (e : Euler) (q : Quat) (d : Nat) :
    ((euler_to_quat ueq h e none).1 = h.length ∧
     (euler_to_quat ueq h e none).2.length = h.length + 1 ∧
     ((euler_to_quat ueq h e none).2.getD h.length []).length = 4) ∧
    ((euler_to_quat ueq h e (some d)).1 = d ∧
     (euler_to_quat ueq h e (some d)).2.length = h.length) ∧
    ((quat_to_euler ute h q none).1 = h.length ∧
     (quat_to_euler ute h q none).2.length = h.length + 1 ∧
     ((quat_to_euler ute h q none).2.getD h.length []).length = 3) ∧
    ((quat_to_euler ute h q (some d)).1 = d ∧
     (quat_to_euler ute h q (some d)).2.length = h.length) := by
  refine ⟨⟨?_, ?_, ?_⟩, ⟨rfl, ?_⟩, ⟨?_, ?_, ?_⟩, ⟨rfl, ?_⟩⟩
  · rw [euler_to_quat_none_eq]
  · rw [euler_to_quat_none_eq]
    simp
  · rw [euler_to_quat_none_eq]
    simp only
    rw [List.getD_append_right _ _ _ _ le_rfl]
    simp [overwrite_length]
  · exact hwrite_length h d (ueq e)
  · rw [quat_to_euler_none_eq]
  · rw [quat_to_euler_none_eq]
    simp
  · rw [quat_to_euler_none_eq]
    simp only
    rw [List.getD_append_right _ _ _ _ le_rfl]
    simp [overwrite_length]
  · exact hwrite_length h d (ute q)

/-- C9: `angle_wrap_0_2pi` maps every angle into `[0, 2π)`, differing
from the input by an integer multiple of `2π`; in particular
`wrap(-π/2) = 3π/2` and `wrap(5π) = π`. -/
theorem angle_wrap_0_2pi_spec (a : ℝ) :
    0 ≤ angle_wrap_0_2pi a ∧
    angle_wrap_0_2pi a < 2 * Real.pi ∧
    (∃ k : ℤ, angle_wrap_0_2pi a = a - 2 * Real.pi * k) ∧
    angle_wrap_0_2pi (-(Real.pi / 2)) = 3 * Real.pi / 2 ∧
    angle_wrap_0_2pi (5 * Real.pi) = Real.pi := by
  have h2pi : (0 : ℝ) < 2 * Real.pi := by positivity
  have hkey : ∀ x : ℝ,
      angle_wrap_0_2pi x = 2 * Real.pi * Int.fract (x / (2 * Real.pi)) := by
    intro x
    unfold angle_wrap_0_2pi
    rw [Int.fract]
    field_simp
  have hfloor1 : ⌊(-(Real.pi / 2)) / (2 * Real.pi)⌋ = -1 := by
    have hx : (-(Real.pi / 2)) / (2 * Real.pi) = -(1 / 4) := by
      rw [div_eq_iff (ne_of_gt h2pi)]
      ring
    rw [hx, Int.floor_eq_iff]
    norm_num
  have hfloor2 : ⌊(5 * Real.pi) / (2 * Real.pi)⌋ = 2 := by
    have hx : (5 * Real.pi) / (2 * Real.pi) = 5 / 2 := by
      rw [div_eq_iff (ne_of_gt h2pi)]
      ring
    rw [hx, Int.floor_eq_iff]
    norm_num
  refine ⟨?_, ?_, ⟨⌊a / (2 * Real.pi)⌋, rfl⟩, ?_, ?_⟩
  · rw [hkey]
    exact mul_nonneg h2pi.le (Int.fract_nonneg _)
  · rw [hkey]
    calc 2 * Real.pi * Int.fract (a / (2 * Real.pi))
        < 2 * Real.pi * 1 :=
          (mul_lt_mul_left h2pi).mpr (Int.fract_lt_one _)
      _ = 2 * Real.pi := mul_one _
  · unfold angle_wrap_0_2pi
    rw [hfloor1]
    push_cast
    ring
  · unfold angle_wrap_0_2pi
    rw [hfloor2]
    push_cast
    ring

/-- C7: `smooth` computes
`last + (curr - last) * (1 - exp(-delta / period))`; with `delta = 0`
the result is `last` unchanged, and as `delta → ∞` (for positive
`period`) the result converges to `curr`. -/
theorem smooth_spec :
    (∀ curr last delta period : ℝ,
      smooth curr last delta period =
        last + (curr - last) * (1 - Real.exp (-delta / period))) ∧
    (∀ curr last period : ℝ, smooth curr last 0 period = last) ∧
    (∀ curr last period : ℝ, 0 < period →
      Filter.Tendsto (fun delta => smooth curr last delta period)
        Filter.atTop (nhds curr)) := by
  refine ⟨fun _ _ _ _ => rfl, fun c l p => by simp [smooth], fun c l p hp => ?_⟩
  have h0 : Filter.Tendsto (fun d : ℝ => d / p) Filter.atTop Filter.atTop :=
    Filter.tendsto_id.atTop_div_const hp
  have h1 : Filter.Tendsto (fun d : ℝ => -d / p) Filter.atTop Filter.atBot :=
    (Filter.tendsto_congr fun d => (neg_div p d).symm).mp
      (Filter.tendsto_neg_atTop_atBot.comp h0)
  have h2 : Filter.Tendsto (fun d : ℝ => Real.exp (-d / p))
      Filter.atTop (nhds 0) := Real.tendsto_exp_atBot.comp h1
  have h3 : Filter.Tendsto (fun d : ℝ => 1 - Real.exp (-d / p))
      Filter.atTop (nhds (1 - 0)) :=
    Filter.Tendsto.sub tendsto_const_nhds h2
  have h4 : Filter.Tendsto
      (fun d : ℝ => l + (c - l) * (1 - Real.exp (-d / p)))
      Filter.atTop (nhds (l + (c - l) * (1 - 0))) :=
    Filter.Tendsto.const_add l (Filter.Tendsto.const_mul (c - l) h3)
  have h5 : l + (c - l) * (1 - 0) = c := by ring
  rw [h5] at h4
  exact h4

/-- Witness for C7 at the spec's example `curr = 10`, `last = 0`,
`period = 1`. -/
theorem smooth_spec_witness :
    smooth 10 0 0 1 = 0 ∧ (0 : ℝ) < 1 ∧
    Filter.Tendsto (fun delta => smooth 10 0 delta 1)
      Filter.atTop (nhds 10) :=
  ⟨smooth_spec.2.1 10 0 1, by norm_num, smooth_spec.2.2 10 0 1 (by norm_num)⟩

theorem half_angle_pack (t : ℝ) :
    Real.sin (t / 2) ^ 2 + Real.cos (t / 2) ^ 2 = 1 ∧
    2 * Real.sin (t / 2) * Real.cos (t / 2) = Real.sin t ∧
    Real.cos (t / 2) ^ 2 - Real.sin (t / 2) ^ 2 = Real.cos t := by
  refine ⟨Real.sin_sq_add_cos_sq _, ?_, ?_⟩
  · rw [show Real.sin t = Real.sin (2 * (t / 2)) by
      rw [show (2 : ℝ) * (t / 2) = t by ring], Real.sin_two_mul]
  · rw [show Real.cos t = Real.cos (2 * (t / 2)) by
      rw [show (2 : ℝ) * (t / 2) = t by ring], Real.cos_two_mul']

theorem atan2_cos_sin {X Y ρ : ℝ} (hρ : 0 < ρ) (hsum : X ^ 2 + Y ^ 2 = ρ ^ 2) :
    ρ * Real.cos (atan2 Y X) = X ∧ ρ * Real.sin (atan2 Y X) = Y := by
  have habs : Complex.abs ⟨X, Y⟩ = ρ := by
    rw [Complex.abs_apply, Complex.normSq_mk,
      show X * X + Y * Y = ρ ^ 2 by linear_combination hsum]
    exact Real.sqrt_sq hρ.le
  have hz : (⟨X, Y⟩ : ℂ) ≠ 0 := by
    intro h0
    rw [h0] at habs
    simp only [map_zero] at habs
    exact absurd habs.symm (ne_of_gt hρ)
  have hρ0 : ρ ≠ 0 := ne_of_gt hρ
  constructor
  · rw [atan2, Complex.cos_arg hz, habs]
    show ρ * ((⟨X, Y⟩ : ℂ).re / ρ) = X
    field_simp
  · rw [atan2, Complex.sin_arg, habs]
    show ρ * ((⟨X, Y⟩ : ℂ).im / ρ) = Y
    field_simp

theorem quat_eq_of_dot_sq_one (a b c d e f g k : ℝ)
    (hp : a ^ 2 + b ^ 2 + c ^ 2 + d ^ 2 = 1)
    (hq : e ^ 2 + f ^ 2 + g ^ 2 + k ^ 2 = 1)
    (hdot : (a * e + b * f + c * g + d * k) ^ 2 = 1) :
    ((a, b, c, d) : RQuat) = (e, f, g, k) ∨
    ((a, b, c, d) : RQuat) = (-e, -f, -g, -k) := by
  obtain ⟨rx, hrxd⟩ : ∃ u : ℝ, u = a * k - d * e - b * g + c * f := ⟨_, rfl⟩
  obtain ⟨ry, hryd⟩ : ∃ u : ℝ, u = b * k - d * f - c * e + a * g := ⟨_, rfl⟩
  obtain ⟨rz, hrzd⟩ : ∃ u : ℝ, u = c * k - d * g - a * f + b * e := ⟨_, rfl⟩
  obtain ⟨rt, hrtd⟩ : ∃ u : ℝ, u = a * e + b * f + c * g + d * k := ⟨_, rfl⟩
  have hnorm : rx ^ 2 + ry ^ 2 + rz ^ 2 + rt ^ 2 = 1 := by
    rw [hrxd, hryd, hrzd, hrtd]
    linear_combination (e ^ 2 + f ^ 2 + g ^ 2 + k ^ 2) * hp + hq
  have hdot' : rt ^ 2 = 1 := by rw [hrtd]; exact hdot
  have hsum0 : rx ^ 2 + ry ^ 2 + rz ^ 2 = 0 := by linarith
  have hrx : rx = 0 := by
    have h1 : rx ^ 2 = 0 := by linarith [hsum0, sq_nonneg rx, sq_nonneg ry, sq_nonneg rz]
    exact sq_eq_zero_iff.mp h1
  have hry : ry = 0 := by
    have h1 : ry ^ 2 = 0 := by linarith [hsum0, sq_nonneg rx, sq_nonneg ry, sq_nonneg rz]
    exact sq_eq_zero_iff.mp h1
  have hrz : rz = 0 := by
    have h1 : rz ^ 2 = 0 := by linarith [hsum0, sq_nonneg rx, sq_nonneg ry, sq_nonneg rz]
    exact sq_eq_zero_iff.mp h1
  have ha : a = rt * e + rx * k + ry * g - rz * f := by
    rw [hrxd, hryd, hrzd, hrtd]
    linear_combination (-a) * hq
  have hb : b = rt * f + ry * k + rz * e - rx * g := by
    rw [hrxd, hryd, hrzd, hrtd]
    linear_combination (-b) * hq
  have hc : c = rt * g + rz * k + rx * f - ry * e := by
    rw [hrxd, hryd, hrzd, hrtd]
    linear_combination (-c) * hq
  have hd : d = rt * k - rx * e - ry * f - rz * g := by
    rw [hrxd, hryd, hrzd, hrtd]
    linear_combination (-d) * hq
  have hcase : rt = 1 ∨ rt = -1 := by
    have h2 : (rt - 1) * (rt + 1) = 0 := by linear_combination hdot'
    rcases mul_eq_zero.mp h2 with h3 | h3
    · exact Or.inl (by linarith)
    · exact Or.inr (by linarith)
  rcases hcase with h1 | h1
  · left
    rw [ha, hb, hc, hd, hrx, hry, hrz, h1]
    norm_num
  · right
    rw [ha, hb, hc, hd, hrx, hry, hrz, h1]
    norm_num

/-- C6: for every unit quaternion `q` away from the gimbal-lock
singularities (attitude entry strictly inside `(-1, 1)`), the round trip
`euler_to_quat (quat_to_euler q)` — through the spec-modelled internal
conversions — yields `q` back up to overall sign, hence the same
rotation. -/
theorem euler_quat_round_trip (x y z w : ℝ)
    (hunit : x ^ 2 + y ^ 2 + z ^ 2 + w ^ 2 = 1)
    (hlock : (2 * (x * y + z * w)) ^ 2 < 1) :
    ueuler_to_quat (uquat_to_euler (x, y, z, w)) = (x, y, z, w) ∨
    ueuler_to_quat (uquat_to_euler (x, y, z, w)) = (-x, -y, -z, -w) := by
  set ρ := Real.sqrt (1 - (2 * (x * y + z * w)) ^ 2) with hρd
  have hρ2 : ρ ^ 2 = 1 - (2 * (x * y + z * w)) ^ 2 := by
    rw [hρd]
    exact Real.sq_sqrt (by linarith)
  have hρpos : 0 < ρ := by
    rw [hρd]
    exact Real.sqrt_pos.mpr (by linarith)
  have hpr1 : (1 - 2 * (y ^ 2 + z ^ 2)) ^ 2 + (2 * (y * w - x * z)) ^ 2 = ρ ^ 2 := by
    rw [hρ2]
    linear_combination 4 * (y ^ 2 + z ^ 2) * hunit
  have hpr3 : (1 - 2 * (x ^ 2 + z ^ 2)) ^ 2 + (2 * (x * w - y * z)) ^ 2 = ρ ^ 2 := by
    rw [hρ2]
    linear_combination 4 * (x ^ 2 + z ^ 2) * hunit
  obtain ⟨hch, hsh⟩ := atan2_cos_sin hρpos hpr1
  obtain ⟨hcb, hsb⟩ := atan2_cos_sin hρpos hpr3
  have hsa : Real.sin (Real.arcsin (2 * (x * y + z * w))) = 2 * (x * y + z * w) :=
    Real.sin_arcsin
      (by nlinarith [sq_nonneg (2 * (x * y + z * w) + 1)])
      (by nlinarith [sq_nonneg (2 * (x * y + z * w) - 1)])
  have hca : Real.cos (Real.arcsin (2 * (x * y + z * w))) = ρ := by
    rw [Real.cos_arcsin, hρd]
  obtain ⟨g1, hs1, hc1⟩ :=
    half_angle_pack (atan2 (2 * (y * w - x * z)) (1 - 2 * (y ^ 2 + z ^ 2)))
  obtain ⟨g2, hs2, hc2⟩ := half_angle_pack (Real.arcsin (2 * (x * y + z * w)))
  obtain ⟨g3, hs3, hc3⟩ :=
    half_angle_pack (atan2 (2 * (x * w - y * z)) (1 - 2 * (x ^ 2 + z ^ 2)))
  set S1 := Real.sin (atan2 (2 * (y * w - x * z)) (1 - 2 * (y ^ 2 + z ^ 2)) / 2) with hS1d
  set C1 := Real.cos (atan2 (2 * (y * w - x * z)) (1 - 2 * (y ^ 2 + z ^ 2)) / 2) with hC1d
  set S2 := Real.sin (Real.arcsin (2 * (x * y + z * w)) / 2) with hS2d
  set C2 := Real.cos (Real.arcsin (2 * (x * y + z * w)) / 2) with hC2d
  set S3 := Real.sin (atan2 (2 * (x * w - y * z)) (1 - 2 * (x ^ 2 + z ^ 2)) / 2) with hS3d
  set C3 := Real.cos (atan2 (2 * (x * w - y * z)) (1 - 2 * (x ^ 2 + z ^ 2)) / 2) with hC3d
  have g4 : ρ * (2 * S1 * C1) = 2 * (y * w - x * z) := by rw [hs1]; exact hsh
  have g5 : ρ * (C1 ^ 2 - S1 ^ 2) = 1 - 2 * (y ^ 2 + z ^ 2) := by rw [hc1]; exact hch
  have g6 : 2 * S2 * C2 = 2 * (x * y + z * w) := by rw [hs2]; exact hsa
  have g7 : C2 ^ 2 - S2 ^ 2 = ρ := by rw [hc2]; exact hca
  have g8 : ρ * (2 * S3 * C3) = 2 * (x * w - y * z) := by rw [hs3]; exact hsb
  have g9 : ρ * (C3 ^ 2 - S3 ^ 2) = 1 - 2 * (x ^ 2 + z ^ 2) := by rw [hc3]; exact hcb
  have hq' : ueuler_to_quat (uquat_to_euler (x, y, z, w)) =
      (S1 * S2 * C3 + C1 * C2 * S3, S1 * C2 * C3 + C1 * S2 * S3,
       C1 * S2 * C3 - S1 * C2 * S3, C1 * C2 * C3 - S1 * S2 * S3) := by
    rw [hS1d, hC1d, hS2d, hC2d, hS3d, hC3d]
    simp only [ueuler_to_quat, uquat_to_euler, qmul, Prod.mk.injEq]
    refine ⟨by ring, by ring, by ring, by ring⟩
  have hnormq' : (S1 * S2 * C3 + C1 * C2 * S3) ^ 2 + (S1 * C2 * C3 + C1 * S2 * S3) ^ 2 +
      (C1 * S2 * C3 - S1 * C2 * S3) ^ 2 + (C1 * C2 * C3 - S1 * S2 * S3) ^ 2 = 1 := by
    linear_combination ((S2 ^ 2 + C2 ^ 2) * (S3 ^ 2 + C3 ^ 2)) * g1 +
      (S3 ^ 2 + C3 ^ 2) * g2 + g3
  have hbig : ρ ^ 2 * (((S1 * S2 * C3 + C1 * C2 * S3) * x + (S1 * C2 * C3 + C1 * S2 * S3) * y +
      (C1 * S2 * C3 - S1 * C2 * S3) * z + (C1 * C2 * C3 - S1 * S2 * S3) * w) ^ 2) =
      ρ ^ 2 * 1 := by
    linear_combination
      (S2^2*S3^2*w^2*ρ^2 + (-2 : ℝ)*S2^2*S3*C3*x*w*ρ^2 + S2^2*C3^2*x^2*ρ^2 + 2*S2*C2*S3^2*z*w*ρ^2 + (-2 : ℝ)*S2*C2*S3*C3*x*z*ρ^2 + (-2 : ℝ)*S2*C2*S3*C3*y*w*ρ^2 + 2*S2*C2*C3^2*x*y*ρ^2 + C2^2*S3^2*z^2*ρ^2 + (-2 : ℝ)*C2^2*S3*C3*y*z*ρ^2 + C2^2*C3^2*y^2*ρ^2 + 2*S3*C3*x^2*y*z*ρ^2 + 2*S3*C3*x*y^2*w*ρ^2 + 2*S3*C3*x*z^2*w*ρ^2 + S3*C3*x*w*ρ^2 + 2*S3*C3*y*z*w^2*ρ^2 + S3*C3*y*z*ρ^2 + (-2 : ℝ)*C3^2*x^2*y^2*ρ^2 + (-1/2 : ℝ)*C3^2*x^2*ρ^2 + (-1/2 : ℝ)*C3^2*y^2*ρ^2 + 2*C3^2*z^2*w^2*ρ^2 + (1/2 : ℝ)*C3^2*z^2*ρ^2 + (1/2 : ℝ)*C3^2*w^2*ρ^2 + x^2*y^2*ρ^2 + (1/4 : ℝ)*x^2*ρ^3 + (1/4 : ℝ)*x^2*ρ^2 + (-1/4 : ℝ)*y^2*ρ^3 + (1/4 : ℝ)*y^2*ρ^2 + (-1 : ℝ)*z^2*w^2*ρ^2 + (-1/4 : ℝ)*z^2*ρ^3 + (-1/4 : ℝ)*z^2*ρ^2 + (1/4 : ℝ)*w^2*ρ^3 + (-1/4 : ℝ)*w^2*ρ^2) * g1 +
      ((-2 : ℝ)*S1*C1*S3^2*y*w*ρ^2 + 2*S1*C1*S3*C3*x*y*ρ^2 + (-2 : ℝ)*S1*C1*S3*C3*z*w*ρ^2 + 2*S1*C1*C3^2*x*z*ρ^2 + (-1 : ℝ)*S1*C1*x*z*ρ^2 + S1*C1*y*w*ρ^2 + C1^2*S3^2*y^2*ρ^2 + (-1 : ℝ)*C1^2*S3^2*w^2*ρ^2 + 2*C1^2*S3*C3*x*w*ρ^2 + 2*C1^2*S3*C3*y*z*ρ^2 + (-1 : ℝ)*C1^2*C3^2*x^2*ρ^2 + C1^2*C3^2*z^2*ρ^2 + (1/2 : ℝ)*C1^2*x^2*ρ^2 + (-1/2 : ℝ)*C1^2*y^2*ρ^2 + (-1/2 : ℝ)*C1^2*z^2*ρ^2 + (1/2 : ℝ)*C1^2*w^2*ρ^2 + S3^2*w^2*ρ^2 + (-1 : ℝ)*S3*C3*x*w*ρ^2 + (-1 : ℝ)*S3*C3*y*z*ρ^2 + (1/2 : ℝ)*C3^2*x^2*ρ^2 + (1/2 : ℝ)*C3^2*y^2*ρ^2 + (-1/2 : ℝ)*C3^2*z^2*ρ^2 + (1/2 : ℝ)*C3^2*w^2*ρ^2 + (1/2 : ℝ)*z^2*ρ^2 + (-1/2 : ℝ)*w^2*ρ^2) * g2 +
      ((-2 : ℝ)*S1*C1*S2*C2*x*w*ρ^2 + (-2 : ℝ)*S1*C1*S2*C2*y*z*ρ^2 + (-2 : ℝ)*S1*C1*C2^2*x*z*ρ^2 + 2*S1*C1*C2^2*y*w*ρ^2 + (-2 : ℝ)*S1*C1*y*w*ρ^2 + 2*C1^2*S2*C2*x*y*ρ^2 + (-2 : ℝ)*C1^2*S2*C2*z*w*ρ^2 + C1^2*C2^2*x^2*ρ^2 + (-1 : ℝ)*C1^2*C2^2*y^2*ρ^2 + (-1 : ℝ)*C1^2*C2^2*z^2*ρ^2 + C1^2*C2^2*w^2*ρ^2 + C1^2*y^2*ρ^2 + (-1 : ℝ)*C1^2*w^2*ρ^2 + 2*S2*C2*z*w*ρ^2 + C2^2*z^2*ρ^2 + (-1 : ℝ)*C2^2*w^2*ρ^2 + (-2 : ℝ)*x^3*y*z*w*ρ + 2*x^2*y^4*ρ + 2*x^2*y^2*w^2*ρ + (-1/2 : ℝ)*x^2*y^2*ρ + (-2 : ℝ)*x^2*z^2*w^2*ρ + (-1/2 : ℝ)*x^2*z^2*ρ + (-1/4 : ℝ)*x^2*ρ^3 + (-1/4 : ℝ)*x^2*ρ + 2*x*y^3*z*w*ρ + (-2 : ℝ)*x*y*z^3*w*ρ + 2*x*y*z*w^3*ρ + (1/2 : ℝ)*y^4*ρ + (1/2 : ℝ)*y^2*w^2*ρ + (1/4 : ℝ)*y^2*ρ^3 + (-1/4 : ℝ)*y^2*ρ + (-2 : ℝ)*z^4*w^2*ρ + (-1/2 : ℝ)*z^4*ρ + (1/2 : ℝ)*z^2*w^2*ρ + (-1/4 : ℝ)*z^2*ρ^3 + (1/4 : ℝ)*z^2*ρ + (1/4 : ℝ)*w^2*ρ^3 + w^2*ρ^2 + (1/4 : ℝ)*w^2*ρ) * g3 +
      (S3*C3*x^3*y*ρ + S3*C3*x^2*z*w*ρ + S3*C3*x*y^3*ρ + (-1 : ℝ)*S3*C3*x*y*z^2*ρ + (-1 : ℝ)*S3*C3*x*y*w^2*ρ + S3*C3*x*y*ρ + S3*C3*y^2*z*w*ρ + (-1 : ℝ)*S3*C3*z^3*w*ρ + (-1 : ℝ)*S3*C3*z*w^3*ρ + (-1 : ℝ)*S3*C3*z*w*ρ + 2*C3^2*x^2*y*w*ρ + 2*C3^2*x*y^2*z*ρ + 2*C3^2*x*z*w^2*ρ + C3^2*x*z*ρ + 2*C3^2*y*z^2*w*ρ + C3^2*y*w*ρ + (-1 : ℝ)*x^2*y*w*ρ + (-1 : ℝ)*x*y^2*z*ρ + (-1 : ℝ)*x*z*w^2*ρ + (-1/2 : ℝ)*x*z*ρ^2 + (-1/2 : ℝ)*x*z*ρ + (-1 : ℝ)*y*z^2*w*ρ + (1/2 : ℝ)*y*w*ρ^2 + (-1/2 : ℝ)*y*w*ρ) * g4 +
      (2*S3*C3*x^2*y*z*ρ + 2*S3*C3*x*y^2*w*ρ + 2*S3*C3*x*z^2*w*ρ + S3*C3*x*w*ρ + 2*S3*C3*y*z*w^2*ρ + S3*C3*y*z*ρ + (-2 : ℝ)*C3^2*x^2*y^2*ρ + (-1/2 : ℝ)*C3^2*x^2*ρ + (-1/2 : ℝ)*C3^2*y^2*ρ + 2*C3^2*z^2*w^2*ρ + (1/2 : ℝ)*C3^2*z^2*ρ + (1/2 : ℝ)*C3^2*w^2*ρ + x^2*y^2*ρ + (1/4 : ℝ)*x^2*ρ^2 + (1/4 : ℝ)*x^2*ρ + (-1/4 : ℝ)*y^2*ρ^2 + (1/4 : ℝ)*y^2*ρ + (-1 : ℝ)*z^2*w^2*ρ + (-1/4 : ℝ)*z^2*ρ^2 + (-1/4 : ℝ)*z^2*ρ + (1/4 : ℝ)*w^2*ρ^2 + (-1/4 : ℝ)*w^2*ρ) * g5 +
      (S1*C1*S3*C3*x^2*ρ^2 + S1*C1*S3*C3*y^2*ρ^2 + (-1 : ℝ)*S1*C1*S3*C3*z^2*ρ^2 + (-1 : ℝ)*S1*C1*S3*C3*w^2*ρ^2 + 2*S1*C1*C3^2*x*w*ρ^2 + 2*S1*C1*C3^2*y*z*ρ^2 + (-1 : ℝ)*S1*C1*x*w*ρ^2 + (-1 : ℝ)*S1*C1*y*z*ρ^2 + 2*C1^2*S3*C3*x*z*ρ^2 + 2*C1^2*S3*C3*y*w*ρ^2 + (-2 : ℝ)*C1^2*C3^2*x*y*ρ^2 + 2*C1^2*C3^2*z*w*ρ^2 + C1^2*x*y*ρ^2 + (-1 : ℝ)*C1^2*z*w*ρ^2 + (-1 : ℝ)*S3*C3*x*z*ρ^2 + (-1 : ℝ)*S3*C3*y*w*ρ^2 + C3^2*x*y*ρ^2 + (-1 : ℝ)*C3^2*z*w*ρ^2 + z*w*ρ^2) * g6 +
      ((-1 : ℝ)*S1*C1*x*z*ρ^2 + S1*C1*y*w*ρ^2 + (1/2 : ℝ)*C1^2*x^2*ρ^2 + (-1/2 : ℝ)*C1^2*y^2*ρ^2 + (-1/2 : ℝ)*C1^2*z^2*ρ^2 + (1/2 : ℝ)*C1^2*w^2*ρ^2 + S3*C3*x*w*ρ^2 + (-1 : ℝ)*S3*C3*y*z*ρ^2 + (-1/2 : ℝ)*C3^2*x^2*ρ^2 + (1/2 : ℝ)*C3^2*y^2*ρ^2 + (-1/2 : ℝ)*C3^2*z^2*ρ^2 + (1/2 : ℝ)*C3^2*w^2*ρ^2 + (1/2 : ℝ)*z^2*ρ^2 + (-1/2 : ℝ)*w^2*ρ^2) * g7 +
      ((-1 : ℝ)*x^4*y*z + x^3*y^2*w + (-1 : ℝ)*x^3*z^2*w + (-3 : ℝ)*x^2*y^3*z + (-1 : ℝ)*x^2*y*z^3 + 2*x^2*y*z*w^2 + (-1 : ℝ)*x*y^4*w + (-6 : ℝ)*x*y^2*z^2*w + (-1 : ℝ)*x*y^2*w^3 + x*y^2*w + (-1 : ℝ)*x*z^4*w + x*z^2*w^3 + x*z^2*w + (1/2 : ℝ)*x*w*ρ^2 + (1/2 : ℝ)*x*w + (-1 : ℝ)*y^3*z*w^2 + (-1 : ℝ)*y^3*z + (-3 : ℝ)*y*z^3*w^2 + (-1 : ℝ)*y*z^3 + (-1 : ℝ)*y*z*w^4 + (-1/2 : ℝ)*y*z*ρ^2 + (1/2 : ℝ)*y*z) * g8 +
      ((-2 : ℝ)*x^3*y*z*w + 2*x^2*y^4 + 2*x^2*y^2*w^2 + (-1/2 : ℝ)*x^2*y^2 + (-2 : ℝ)*x^2*z^2*w^2 + (-1/2 : ℝ)*x^2*z^2 + (-1/4 : ℝ)*x^2*ρ^2 + (-1/4 : ℝ)*x^2 + 2*x*y^3*z*w + (-2 : ℝ)*x*y*z^3*w + 2*x*y*z*w^3 + (1/2 : ℝ)*y^4 + (1/2 : ℝ)*y^2*w^2 + (1/4 : ℝ)*y^2*ρ^2 + (-1/4 : ℝ)*y^2 + (-2 : ℝ)*z^4*w^2 + (-1/2 : ℝ)*z^4 + (1/2 : ℝ)*z^2*w^2 + (-1/4 : ℝ)*z^2*ρ^2 + (1/4 : ℝ)*z^2 + (1/4 : ℝ)*w^2*ρ^2 + (1/4 : ℝ)*w^2) * g9 +
      ((1/2 : ℝ)*x^4 + (3/2 : ℝ)*x^2*z^2 + (1/2 : ℝ)*x^2*w^2 + (1/4 : ℝ)*x^2 + (-2 : ℝ)*x*y*z*w + (1/2 : ℝ)*y^4 + (3/2 : ℝ)*y^2*z^2 + (1/2 : ℝ)*y^2*w^2 + (1/4 : ℝ)*y^2 + z^4 + (-1/4 : ℝ)*z^2 + (3/4 : ℝ)*w^2 + (-1 : ℝ)) * hρ2 +
      ((-2 : ℝ)*x^4*y^2 + (-2 : ℝ)*x^3*y*z*w + (-2 : ℝ)*x^2*y^4 + (-2 : ℝ)*x^2*y^2*z^2 + (-2 : ℝ)*x^2*y^2*w^2 + (-2 : ℝ)*x^2*y^2 + x^2*z^2 + x^2 + (-2 : ℝ)*x*y^3*z*w + (-2 : ℝ)*x*y*z^3*w + (-2 : ℝ)*x*y*z*w^3 + (-6 : ℝ)*x*y*z*w + y^2*z^2 + y^2 + z^4 + (-3 : ℝ)*z^2*w^2 + z^2 + (1 : ℝ)) * hunit
  have hdotsq : ((S1 * S2 * C3 + C1 * C2 * S3) * x + (S1 * C2 * C3 + C1 * S2 * S3) * y +
      (C1 * S2 * C3 - S1 * C2 * S3) * z + (C1 * C2 * C3 - S1 * S2 * S3) * w) ^ 2 = 1 :=
    mul_left_cancel₀ (pow_ne_zero 2 (ne_of_gt hρpos)) hbig
  rcases quat_eq_of_dot_sq_one (S1 * S2 * C3 + C1 * C2 * S3) (S1 * C2 * C3 + C1 * S2 * S3)
      (C1 * S2 * C3 - S1 * C2 * S3) (C1 * C2 * C3 - S1 * S2 * S3) x y z w
      hnormq' hunit hdotsq with hfin | hfin
  · left
    rw [hq']
    exact hfin
  · right
    rw [hq']
    exact hfin

/-- Witness for C6 at the identity quaternion. -/
theorem euler_quat_round_trip_witness :
    ((0 : ℝ) ^ 2 + 0 ^ 2 + 0 ^ 2 + 1 ^ 2 = 1) ∧
    ((2 * ((0 : ℝ) * 0 + 0 * 1)) ^ 2 < 1) ∧
    (ueuler_to_quat (uquat_to_euler ((0 : ℝ), (0 : ℝ), (0 : ℝ), (1 : ℝ))) =
        ((0 : ℝ), (0 : ℝ), (0 : ℝ), (1 : ℝ)) ∨
      ueuler_to_quat (uquat_to_euler ((0 : ℝ), (0 : ℝ), (0 : ℝ), (1 : ℝ))) =
        (-(0 : ℝ), -(0 : ℝ), -(0 : ℝ), -(1 : ℝ))) :=
  ⟨by norm_num, by norm_num,
    euler_quat_round_trip 0 0 0 1 (by norm_num) (by norm_num)⟩

end B4WUtil
